import Mathlib

/-!
Shallow embedding of the webhook ingress and signature-verification subsystem
of the LicenseChain Seller API (src/src/utils/webhook.ts and
src/src/routes/webhooks.ts), together with models of the JavaScript / Node.js
primitives those files rely on (Buffer hex decoding, crypto.createHmac with
SHA-256, crypto.timingSafeEqual, parseInt, JSON.stringify / JSON.parse).
Bytes are modelled as Nat values below 256; machine words use Nat arithmetic
with explicit reduction modulo 2^32.
-/

set_option maxRecDepth 400000
set_option maxHeartbeats 1000000

namespace LicenseChain

/-! ### UTF-8 encoding (Buffer.update(payload, "utf8")) -/

/-- Standard UTF-8 encoding of a single Unicode scalar value. -/
def utf8EncodeChar (c : Char) : List Nat :=
  let n := c.toNat
  if n < 128 then [n]
  else if n < 2048 then
    [192 ||| (n >>> 6), 128 ||| (n &&& 63)]
  else if n < 65536 then
    [224 ||| (n >>> 12), 128 ||| ((n >>> 6) &&& 63), 128 ||| (n &&& 63)]
  else
    [240 ||| (n >>> 18), 128 ||| ((n >>> 12) &&& 63),
     128 ||| ((n >>> 6) &&& 63), 128 ||| (n &&& 63)]

/-- UTF-8 encoding of a string into bytes. -/
def utf8Encode (s : String) : List Nat :=
  (s.data.map utf8EncodeChar).flatten

/-! ### Hexadecimal encoding and decoding -/

/-- Lowercase hexadecimal digit for a value below 16. -/
def hexDigitChar (n : Nat) : Char :=
  if n < 10 then Char.ofNat (48 + n) else Char.ofNat (87 + n)

/-- Lowercase hexadecimal rendering of a byte list, as produced by
Node digest("hex"). -/
def hexEncode (bs : List Nat) : String :=
  ⟨(bs.map fun b => [hexDigitChar (b / 16), hexDigitChar (b % 16)]).flatten⟩

/-- Value of one hexadecimal character (Node accepts both cases). -/
def hexCharVal (c : Char) : Option Nat :=
  if 48 ≤ c.toNat ∧ c.toNat ≤ 57 then some (c.toNat - 48)
  else if 97 ≤ c.toNat ∧ c.toNat ≤ 102 then some (c.toNat - 87)
  else if 65 ≤ c.toNat ∧ c.toNat ≤ 70 then some (c.toNat - 55)
  else none

/-- Hex decoding of a character list, two characters per byte.  Decoding
stops at the first invalid character or at a trailing odd character,
truncating the output, exactly as Buffer.from(s, "hex") does in Node. -/
def hexDecodeChars : List Char → List Nat
  | c1 :: c2 :: rest =>
    match hexCharVal c1, hexCharVal c2 with
    | some hi, some lo => (16 * hi + lo) :: hexDecodeChars rest
    | _, _ => []
  | _ => []

/-- Model of Buffer.from(s, "hex"). -/
def hexDecode (s : String) : List Nat :=
  hexDecodeChars s.data

/-! ### crypto.timingSafeEqual -/

/-- Model of Node crypto.timingSafeEqual on byte buffers: when the two
buffers have equal length it reports whether they are equal (the real
implementation scans all bytes unconditionally; extensionally this is list
equality); when the lengths differ it throws a RangeError, modelled here
as none. -/
def timingSafeEqual (a b : List Nat) : Option Bool :=
  if a.length = b.length then some (a == b) else none

/-! ### JavaScript parseInt and NaN-aware comparison -/

/-- Value of a list of decimal digit characters. -/
def decDigitsVal (ds : List Char) : Nat :=
  ds.foldl (fun acc c => 10 * acc + (c.toNat - 48)) 0

/-- Value of a list of hexadecimal digit characters. -/
def hexDigitsVal (ds : List Char) : Nat :=
  ds.foldl (fun acc c => 16 * acc + ((hexCharVal c).getD 0)) 0

/-- Model of JavaScript parseInt(s) with no radix argument: leading
whitespace is skipped, an optional sign is read, a 0x/0X head switches to
hexadecimal, then the longest valid digit run is converted; none models
NaN (no digits at all). -/
def jsParseInt (s : String) : Option Int :=
  let cs := s.data.dropWhile fun c => c == ' ' || c == '\t' || c == '\n' || c == '\r'
  let signed : Int × List Char :=
    match cs with
    | '-' :: rest => (-1, rest)
    | '+' :: rest => (1, rest)
    | _ => (1, cs)
  match signed.2 with
  | '0' :: 'x' :: rest =>
    let hs := rest.takeWhile fun c => (hexCharVal c).isSome
    if hs.isEmpty then none else some (signed.1 * (hexDigitsVal hs : Int))
  | '0' :: 'X' :: rest =>
    let hs := rest.takeWhile fun c => (hexCharVal c).isSome
    if hs.isEmpty then none else some (signed.1 * (hexDigitsVal hs : Int))
  | rest =>
    let ds := rest.takeWhile fun c => c.isDigit
    if ds.isEmpty then none else some (signed.1 * (decDigitsVal ds : Int))

/-- Model of the JavaScript test Math.abs(now - t) > tol where t may be
NaN (none): every comparison against NaN evaluates to false. -/
def jsStaleGt (now : Int) (t : Option Int) (tol : Int) : Bool :=
  match t with
  | none => false
  | some t => decide (((now - t).natAbs : Int) > tol)

/-- Truthiness test !h for a string header: true when the header is
absent (undefined) or the empty string. -/
def jsFalsyHeader : Option String → Bool
  | none => true
  | some s => s.isEmpty

/-! ### SHA-256 (model of the Node crypto implementation) -/

/-- Reduction modulo 2^32. -/
def w32 (n : Nat) : Nat := n % 4294967296

/-- Right rotation of a 32-bit word. -/
def rotr32 (n x : Nat) : Nat := w32 ((x >>> n) ||| (x <<< (32 - n)))

def bigSigma0 (x : Nat) : Nat := rotr32 2 x ^^^ rotr32 13 x ^^^ rotr32 22 x
def bigSigma1 (x : Nat) : Nat := rotr32 6 x ^^^ rotr32 11 x ^^^ rotr32 25 x
def smallSigma0 (x : Nat) : Nat := rotr32 7 x ^^^ rotr32 18 x ^^^ (x >>> 3)
def smallSigma1 (x : Nat) : Nat := rotr32 17 x ^^^ rotr32 19 x ^^^ (x >>> 10)
def chf (x y z : Nat) : Nat := (x &&& y) ^^^ ((4294967295 ^^^ x) &&& z)
def majf (x y z : Nat) : Nat := (x &&& y) ^^^ (x &&& z) ^^^ (y &&& z)

/-- SHA-256 round constants (FIPS 180-4, written in decimal). -/
def sha256K : List Nat :=
  [1116352408, 1899447441, 3049323471, 3921009573, 961987163,
   1508970993, 2453635748, 2870763221, 3624381080, 310598401,
   607225278, 1426881987, 1925078388, 2162078206, 2614888103,
   3248222580, 3835390401, 4022224774, 264347078, 604807628,
   770255983, 1249150122, 1555081692, 1996064986, 2554220882,
   2821834349, 2952996808, 3210313671, 3336571891, 3584528711,
   113926993, 338241895, 666307205, 773529912, 1294757372,
   1396182291, 1695183700, 1986661051, 2177026350, 2456956037,
   2730485921, 2820302411, 3259730800, 3345764771, 3516065817,
   3600352804, 4094571909, 275423344, 430227734, 506948616,
   659060556, 883997877, 958139571, 1322822218, 1537002063,
   1747873779, 1955562222, 2024104815, 2227730452, 2361852424,
   2428436474, 2756734187, 3204031479, 3329325298]

/-- Working state of the compression function: eight 32-bit words. -/
structure Hash8 where
  h0 : Nat
  h1 : Nat
  h2 : Nat
  h3 : Nat
  h4 : Nat
  h5 : Nat
  h6 : Nat
  h7 : Nat

/-- SHA-256 initial hash value (FIPS 180-4, written in decimal). -/
def sha256InitH : Hash8 :=
  ⟨1779033703, 3144134277, 1013904242, 2773480762,
   1359893119, 2600822924, 528734635, 1541459225⟩

/-- Message-schedule extension: acc holds the schedule produced so far in
reverse order, so positions 1, 6, 14 and 15 are W[i-2], W[i-7], W[i-15]
and W[i-16]. -/
def scheduleExtend : Nat → List Nat → List Nat
  | 0, acc => acc
  | n + 1, acc =>
    let g := fun k => acc.getD k 0
    scheduleExtend n
      (w32 (smallSigma1 (g 1) + g 6 + smallSigma0 (g 14) + g 15) :: acc)

/-- Full 64-entry message schedule from the 16 words of one block. -/
def sha256Schedule (block : List Nat) : List Nat :=
  (scheduleExtend 48 block.reverse).reverse

/-- One SHA-256 compression round. -/
def sha256Round (s : Hash8) (kw : Nat × Nat) : Hash8 :=
  let t1 := w32 (s.h7 + bigSigma1 s.h4 + chf s.h4 s.h5 s.h6 + kw.1 + kw.2)
  let t2 := w32 (bigSigma0 s.h0 + majf s.h0 s.h1 s.h2)
  ⟨w32 (t1 + t2), s.h0, s.h1, s.h2, w32 (s.h3 + t1), s.h4, s.h5, s.h6⟩

/-- Compression of one 16-word block into the chaining state. -/
def sha256Compress (st : Hash8) (block : List Nat) : Hash8 :=
  let r := (sha256K.zip (sha256Schedule block)).foldl sha256Round st
  ⟨w32 (st.h0 + r.h0), w32 (st.h1 + r.h1), w32 (st.h2 + r.h2),
   w32 (st.h3 + r.h3), w32 (st.h4 + r.h4), w32 (st.h5 + r.h5),
   w32 (st.h6 + r.h6), w32 (st.h7 + r.h7)⟩

/-- SHA-256 padding: a 0x80 byte, zeros to 56 mod 64, then the bit length
as eight big-endian bytes. -/
def sha256Pad (msg : List Nat) : List Nat :=
  let L := msg.length
  let z := (64 - (L + 9) % 64) % 64
  let bits := 8 * L
  msg ++ 128 :: List.replicate z 0 ++
    [(bits >>> 56) % 256, (bits >>> 48) % 256, (bits >>> 40) % 256,
     (bits >>> 32) % 256, (bits >>> 24) % 256, (bits >>> 16) % 256,
     (bits >>> 8) % 256, bits % 256]

/-- Grouping of a byte list into blocks of at most 64 bytes, with explicit
fuel so that the definition reduces by structural recursion. -/
def chunksFuel : Nat → List Nat → List (List Nat)
  | 0, _ => []
  | _, [] => []
  | fuel + 1, a :: rest =>
    ((a :: rest).take 64) :: chunksFuel fuel ((a :: rest).drop 64)

/-- Grouping of a byte list into 64-byte blocks. -/
def chunks64 (l : List Nat) : List (List Nat) := chunksFuel l.length l

/-- Big-endian grouping of bytes into 32-bit words. -/
def bytesToWords : List Nat → List Nat
  | b0 :: b1 :: b2 :: b3 :: rest =>
    (((b0 * 256 + b1) * 256 + b2) * 256 + b3) :: bytesToWords rest
  | _ => []

/-- Big-endian bytes of a 32-bit word. -/
def word32Bytes (w : Nat) : List Nat :=
  [(w >>> 24) % 256, (w >>> 16) % 256, (w >>> 8) % 256, w % 256]

/-- Serialization of the final state into the 32-byte digest. -/
def hash8Bytes (s : Hash8) : List Nat :=
  word32Bytes s.h0 ++ word32Bytes s.h1 ++ word32Bytes s.h2 ++
  word32Bytes s.h3 ++ word32Bytes s.h4 ++ word32Bytes s.h5 ++
  word32Bytes s.h6 ++ word32Bytes s.h7

/-- SHA-256 of a byte list. -/
def sha256 (msg : List Nat) : List Nat :=
  hash8Bytes (((chunks64 (sha256Pad msg)).map bytesToWords).foldl
    sha256Compress sha256InitH)

/-- HMAC-SHA256 (RFC 2104) with a 64-byte block size, as implemented by
crypto.createHmac("sha256", key). -/
def hmacSha256 (key msg : List Nat) : List Nat :=
  let k0 := if 64 < key.length then sha256 key else key
  let kp := k0 ++ List.replicate (64 - k0.length) 0
  sha256 ((kp.map fun b => b ^^^ 92) ++ sha256 ((kp.map fun b => b ^^^ 54) ++ msg))

/-! ### JSON values, JSON.stringify and JSON.parse (express.json) -/

/-- JSON values as handled by express.json and JSON.stringify.  Numbers
are restricted to integers, which covers every payload considered here. -/
inductive Json where
  | null : Json
  | bool (b : Bool) : Json
  | num (n : Int) : Json
  | str (s : String) : Json
  | arr (items : List Json) : Json
  | obj (fields : List (String × Json)) : Json

/-- Escaping of one character inside a JSON string literal, as performed
by JSON.stringify. -/
def jsonEscapeChar (c : Char) : List Char :=
  if c = '"' then ['\\', '"']
  else if c = '\\' then ['\\', '\\']
  else if c = '\n' then ['\\', 'n']
  else if c = '\t' then ['\\', 't']
  else if c = '\r' then ['\\', 'r']
  else if c.toNat = 8 then ['\\', 'b']
  else if c.toNat = 12 then ['\\', 'f']
  else if c.toNat < 32 then
    ['\\', 'u', '0', '0', hexDigitChar (c.toNat / 16), hexDigitChar (c.toNat % 16)]
  else [c]

/-- Quoted JSON string literal, as produced by JSON.stringify. -/
def jsonQuote (s : String) : String :=
  "\"" ++ ⟨(s.data.map jsonEscapeChar).flatten⟩ ++ "\""

mutual

/-- Model of JSON.stringify(v) with no replacer and no spacing: compact
output, insertion-order fields, escaped string literals. -/
def stringify : Json → String
  | .null => "null"
  | .bool true => "true"
  | .bool false => "false"
  | .num n => toString n
  | .str s => jsonQuote s
  | .arr items => "[" ++ stringifyItems items ++ "]"
  | .obj fields => "\x7b" ++ stringifyFields fields ++ "\x7d"

/-- Comma-separated serialization of array items. -/
def stringifyItems : List Json → String
  | [] => ""
  | [x] => stringify x
  | x :: y :: rest => stringify x ++ "," ++ stringifyItems (y :: rest)

/-- Comma-separated serialization of object fields. -/
def stringifyFields : List (String × Json) → String
  | [] => ""
  | [(k, v)] => jsonQuote k ++ ":" ++ stringify v
  | (k, v) :: f :: rest =>
    jsonQuote k ++ ":" ++ stringify v ++ "," ++ stringifyFields (f :: rest)

end

/-- Whitespace skipping inside JSON input. -/
def skipJsonWs (cs : List Char) : List Char :=
  cs.dropWhile fun c => c == ' ' || c == '\t' || c == '\n' || c == '\r'

/-- Body of a JSON string literal up to the closing quote, handling the
standard escape sequences. -/
def parseJsonStrChars : List Char → Option (List Char × List Char)
  | [] => none
  | '"' :: rest => some ([], rest)
  | '\\' :: 'u' :: h1 :: h2 :: h3 :: h4 :: rest =>
    match hexCharVal h1, hexCharVal h2, hexCharVal h3, hexCharVal h4 with
    | some a, some b, some c, some d =>
      (parseJsonStrChars rest).map fun r =>
        (Char.ofNat (((a * 16 + b) * 16 + c) * 16 + d) :: r.1, r.2)
    | _, _, _, _ => none
  | '\\' :: e :: rest =>
    let esc : Option Char :=
      if e = '"' then some '"'
      else if e = '\\' then some '\\'
      else if e = '/' then some '/'
      else if e = 'n' then some '\n'
      else if e = 't' then some '\t'
      else if e = 'r' then some '\r'
      else if e = 'b' then some (Char.ofNat 8)
      else if e = 'f' then some (Char.ofNat 12)
      else none
    match esc with
    | some c => (parseJsonStrChars rest).map fun r => (c :: r.1, r.2)
    | none => none
  | c :: rest => (parseJsonStrChars rest).map fun r => (c :: r.1, r.2)

/-- Integer JSON number (optional sign, decimal digits). -/
def parseJsonNum (cs : List Char) : Option (Json × List Char) :=
  match cs with
  | '-' :: rest =>
    let ds := rest.takeWhile fun c => c.isDigit
    if ds.isEmpty then none
    else some (.num (-(decDigitsVal ds : Int)), rest.drop ds.length)
  | _ =>
    let ds := cs.takeWhile fun c => c.isDigit
    if ds.isEmpty then none
    else some (.num (decDigitsVal ds : Int), cs.drop ds.length)

mutual

/-- JSON value with fuel (structural recursion on the fuel). -/
def parseJsonVal : Nat → List Char → Option (Json × List Char)
  | 0, _ => none
  | fuel + 1, cs =>
    match skipJsonWs cs with
    | 'n' :: 'u' :: 'l' :: 'l' :: rest => some (.null, rest)
    | 't' :: 'r' :: 'u' :: 'e' :: rest => some (.bool true, rest)
    | 'f' :: 'a' :: 'l' :: 's' :: 'e' :: rest => some (.bool false, rest)
    | '"' :: rest => (parseJsonStrChars rest).map fun r => (.str ⟨r.1⟩, r.2)
    | '[' :: rest =>
      (match skipJsonWs rest with
       | ']' :: rest2 => some (.arr [], rest2)
       | _ => (parseJsonArrItems fuel rest).map fun r => (.arr r.1, r.2))
    | '{' :: rest =>
      (match skipJsonWs rest with
       | '}' :: rest2 => some (.obj [], rest2)
       | _ => (parseJsonObjFields fuel rest).map fun r => (.obj r.1, r.2))
    | rest => parseJsonNum rest

/-- Comma-separated array items, ending at the closing bracket. -/
def parseJsonArrItems : Nat → List Char → Option (List Json × List Char)
  | 0, _ => none
  | fuel + 1, cs =>
    match parseJsonVal fuel cs with
    | none => none
    | some (v, rest) =>
      match skipJsonWs rest with
      | ',' :: rest2 =>
        (parseJsonArrItems fuel rest2).map fun r => (v :: r.1, r.2)
      | ']' :: rest2 => some ([v], rest2)
      | _ => none

/-- Comma-separated object fields, ending at the closing brace. -/
def parseJsonObjFields : Nat → List Char → Option (List (String × Json) × List Char)
  | 0, _ => none
  | fuel + 1, cs =>
    match skipJsonWs cs with
    | '"' :: rest =>
      match parseJsonStrChars rest with
      | none => none
      | some (k, rest2) =>
        match skipJsonWs rest2 with
        | ':' :: rest3 =>
          (match parseJsonVal fuel rest3 with
           | none => none
           | some (v, rest4) =>
             match skipJsonWs rest4 with
             | ',' :: rest5 =>
               (parseJsonObjFields fuel rest5).map fun r => ((⟨k⟩, v) :: r.1, r.2)
             | '}' :: rest5 => some ([(⟨k⟩, v)], rest5)
             | _ => none)
        | _ => none
    | _ => none

end

/-- Model of the body parsing performed by the express.json middleware
(JSON.parse on the raw request bytes): none models a parse error. -/
def expressJsonParse (raw : String) : Option Json :=
  match parseJsonVal (raw.length + 1) raw.data with
  | some (j, rest) => if (skipJsonWs rest).isEmpty then some j else none
  | none => none

/-! ### WebhookHandler (src/src/utils/webhook.ts) -/

/-- Configuration passed to the WebhookHandler constructor; tolerance is
an optional property. -/
structure WebhookConfig where
  secret : String
  tolerance : Option Int := none

/-- Configuration held by a constructed WebhookHandler. -/
structure HandlerConfig where
  secret : String
  tolerance : Int

/-- Model of the WebhookHandler constructor: the object spread
writes tolerance 300 first and then the caller configuration over it, so
300 survives exactly when the caller supplied no tolerance property. -/
def mkHandler (config : WebhookConfig) : HandlerConfig :=
  { secret := config.secret, tolerance := config.tolerance.getD 300 }

/-- Model of WebhookHandler.createSignature and of the module-level
createWebhookSignature: lowercase hex of HMAC-SHA256 over the UTF-8 bytes
of the payload, keyed by the UTF-8 bytes of the secret. -/
def createSignature (payload secret : String) : String :=
  hexEncode (hmacSha256 (utf8Encode secret) (utf8Encode payload))

/-- Model of WebhookHandler.verifySignature and of the module-level
verifyWebhookSignature: hex-decodes the candidate and the expected
signature and hands both buffers to crypto.timingSafeEqual; none models
the RangeError that timingSafeEqual throws when the decoded buffers have
different lengths. -/
def verifySignature (payload sig secret : String) : Option Bool :=
  timingSafeEqual (hexDecode sig) (hexDecode (createSignature payload secret))

/-- View of an Express request as seen by WebhookHandler.verifyWebhook:
the two webhook headers (none models an absent header) and the JSON body
produced upstream by the express.json middleware. -/
structure MiddlewareRequest where
  sigHeader : Option String
  tsHeader : Option String
  body : Json

/-- Outcome of WebhookHandler.verifyWebhook. -/
inductive VerifyResult where
  | missingCredentials   -- 401, missing webhook signature or timestamp
  | staleTimestamp       -- 401, webhook timestamp too old
  | invalidSignature     -- 401, invalid webhook signature
  | verificationError    -- 500, an exception reached the catch block
  | next                 -- next() was called: verification succeeded
deriving DecidableEq

/-- Model of WebhookHandler.verifyWebhook.  The truthiness test on the
headers, the parseInt / NaN arithmetic of the staleness check, the
JSON.stringify re-serialization of the body, and the RangeError thrown by
crypto.timingSafeEqual on length mismatch (caught as a 500) all follow
the source. -/
def verifyWebhook (now : Int) (cfg : HandlerConfig) (req : MiddlewareRequest) :
    VerifyResult :=
  if jsFalsyHeader req.sigHeader || jsFalsyHeader req.tsHeader then
    .missingCredentials
  else
    let webhookTime := jsParseInt (req.tsHeader.getD "")
    if jsStaleGt now webhookTime cfg.tolerance then
      .staleTimestamp
    else
      let payload := stringify req.body
      let expectedSignature := createSignature payload cfg.secret
      match timingSafeEqual (hexDecode (req.sigHeader.getD ""))
          (hexDecode expectedSignature) with
      | none => .verificationError
      | some false => .invalidSignature
      | some true => .next

/-- Webhook event shape from src/src/utils/webhook.ts. -/
structure WebhookEvent where
  id : String
  type : String
  data : Json
  timestamp : String
  sellerId : String

/-- Outcome of WebhookHandler.processWebhookEvent: either the named
private handler ran, or the switch fell through to the default branch,
which only logs a warning. -/
inductive ProcessOutcome where
  | handled (handlerName : String)
  | unhandled (eventType : String)
deriving DecidableEq

/-- Event types with a registered case in the processWebhookEvent switch. -/
def handledEventTypes : List String :=
  ["license.created", "license.updated", "license.revoked", "license.expired",
   "payment.completed", "payment.failed", "payment.refunded",
   "user.created", "user.updated", "product.created", "product.updated"]

/-- Model of WebhookHandler.processWebhookEvent. -/
def processWebhookEvent (event : WebhookEvent) : ProcessOutcome :=
  if event.type = "license.created" then .handled "handleLicenseCreated"
  else if event.type = "license.updated" then .handled "handleLicenseUpdated"
  else if event.type = "license.revoked" then .handled "handleLicenseRevoked"
  else if event.type = "license.expired" then .handled "handleLicenseExpired"
  else if event.type = "payment.completed" then .handled "handlePaymentCompleted"
  else if event.type = "payment.failed" then .handled "handlePaymentFailed"
  else if event.type = "payment.refunded" then .handled "handlePaymentRefunded"
  else if event.type = "user.created" then .handled "handleUserCreated"
  else if event.type = "user.updated" then .handled "handleUserUpdated"
  else if event.type = "product.created" then .handled "handleProductCreated"
  else if event.type = "product.updated" then .handled "handleProductUpdated"
  else .unhandled event.type

/-- Outcome of the verifyWebhook middleware composed with a downstream
event-processing stage. -/
inductive PipelineOutcome where
  | rejected (r : VerifyResult)
  | dispatched (o : ProcessOutcome)
deriving DecidableEq

/-- Express middleware semantics for the exported webhookMiddleware: the
downstream event-processing stage runs exactly when verifyWebhook calls
next(); on every failure the middleware has already sent the response and
no handler is invoked. -/
def webhookPipeline (now : Int) (cfg : HandlerConfig) (req : MiddlewareRequest)
    (event : WebhookEvent) : PipelineOutcome :=
  match verifyWebhook now cfg req with
  | .next => .dispatched (processWebhookEvent event)
  | r => .rejected r

/-! ### POST /api/webhooks/licensechain (src/src/routes/webhooks.ts) -/

/-- View of a request to the licensechain route: the signature header,
the timestamp header (present on the wire but never read by this route),
and the JSON body parsed by express.json. -/
structure LCRequest where
  sigHeader : Option String
  tsHeader : Option String
  body : Json

/-- Outcome of the licensechain route handler. -/
inductive LCOutcome where
  | validationError                  -- 400 from express-validator
  | invalidSignature                 -- 400, invalid signature
  | handled (handlerName : String)   -- a named handler ran, then 200
  | unhandledOk (eventType : String) -- default branch: info log, then 200
deriving DecidableEq

/-- First field of the given name in a JSON object. -/
def jsonField : Json → String → Option Json
  | .obj fields, k =>
    match fields.find? (fun kv => kv.1 == k) with
    | some kv => some kv.2
    | none => none
  | _, _ => none

/-- Simplified model of the express-validator isISO8601 check: accepts
digit strings of the form YYYY-MM-DD or YYYY-MM-DDTHH:MM:SSZ, which
covers the timestamp formats exercised in this development. -/
def isISO8601 (s : String) : Bool :=
  match s.data with
  | [y1, y2, y3, y4, '-', m1, m2, '-', d1, d2] =>
    [y1, y2, y3, y4, m1, m2, d1, d2].all fun c => c.isDigit
  | [y1, y2, y3, y4, '-', m1, m2, '-', d1, d2, 'T',
     h1, h2, ':', n1, n2, ':', s1, s2, 'Z'] =>
    [y1, y2, y3, y4, m1, m2, d1, d2, h1, h2, n1, n2, s1, s2].all fun c => c.isDigit
  | _ => false

/-- Model of the express-validator chain on the licensechain route:
body("event").isString(), body("data").isObject(),
body("timestamp").isISO8601(). -/
def lcValidate (body : Json) : Bool :=
  (match jsonField body "event" with | some (.str _) => true | _ => false) &&
  (match jsonField body "data" with | some (.obj _) => true | _ => false) &&
  (match jsonField body "timestamp" with
   | some (.str s) => isISO8601 s
   | _ => false)

/-- Event names with a case in the licensechain route switch. -/
def lcHandledEvents : List String :=
  ["license.created", "license.updated", "license.deleted",
   "user.registered", "user.updated", "application.created",
   "application.updated"]

/-- Switch over the event name in the licensechain route. -/
def lcDispatch (event : String) : LCOutcome :=
  if event = "license.created" then .handled "handleLicenseCreated"
  else if event = "license.updated" then .handled "handleLicenseUpdated"
  else if event = "license.deleted" then .handled "handleLicenseDeleted"
  else if event = "user.registered" then .handled "handleUserRegistered"
  else if event = "user.updated" then .handled "handleUserUpdated"
  else if event = "application.created" then .handled "handleApplicationCreated"
  else if event = "application.updated" then .handled "handleApplicationUpdated"
  else .unhandledOk event

/-- Model of the POST /api/webhooks/licensechain handler: validator
errors give a 400; the signature header must equal the literal string
sha256= followed by the hex HMAC-SHA256 of JSON.stringify(req.body) under
config.webhooks.secret (an absent header, compared as undefined, never
equals that string); on success the switch over req.body.event runs.
The route performs no timestamp check of any kind. -/
def licensechainRoute (secret : String) (req : LCRequest) : LCOutcome :=
  if lcValidate req.body then
    let payload := stringify req.body
    let expectedSignature :=
      hexEncode (hmacSha256 (utf8Encode secret) (utf8Encode payload))
    match req.sigHeader with
    | some s =>
      if s = "sha256=" ++ expectedSignature then
        lcDispatch (match jsonField req.body "event" with
          | some (.str e) => e
          | _ => "")
      else .invalidSignature
    | none => .invalidSignature
  else .validationError

/-! ### Comparison-cost models (timing behaviour of the two comparators) -/

/-- Number of element comparisons performed by a short-circuit
left-to-right equality scan: the running-time model of the plain string
comparison used by the route handlers, which stops at the first
mismatching character. -/
def earlyExitEqSteps : List Char → List Char → Nat
  | [], _ => 0
  | _ :: _, [] => 0
  | a :: as, b :: bs => if a = b then 1 + earlyExitEqSteps as bs else 1

/-- Number of byte comparisons performed by crypto.timingSafeEqual, which
scans every byte of its equal-length inputs unconditionally (none models
the RangeError on a length mismatch). -/
def timingSafeEqualSteps (a b : List Nat) : Option Nat :=
  if a.length = b.length then some a.length else none

/-! ### Spec-side reference definitions -/

/-- Modelled from the spec (verifyRequest steps 1-3 of section 4.1), for
comparison against the code: the timestamp-window verification succeeds
when the timestamp header is present, parses as an integer count of
seconds, and lies within the tolerance window around now. -/
def specTimestampWindowOk (now : Int) (tsHeader : Option String) (tol : Int) :
    Bool :=
  match tsHeader with
  | none => false
  | some s =>
    match jsParseInt s with
    | none => false
    | some t => decide (((now - t).natAbs : Int) ≤ tol)

/-! ### Supporting lemmas -/

theorem timingSafeEqual_self (a : List Nat) : timingSafeEqual a a = some true := by
  simp [timingSafeEqual]

theorem word32Bytes_mem_lt (w : Nat) : ∀ b ∈ word32Bytes w, b < 256 := by
  intro b hb
  simp [word32Bytes] at hb
  rcases hb with rfl | rfl | rfl | rfl <;> exact Nat.mod_lt _ (by norm_num)

theorem hash8Bytes_mem_lt (s : Hash8) : ∀ b ∈ hash8Bytes s, b < 256 := by
  intro b hb
  simp only [hash8Bytes, List.mem_append] at hb
  rcases hb with ((((((hb | hb) | hb) | hb) | hb) | hb) | hb) | hb <;>
    exact word32Bytes_mem_lt _ _ hb

theorem hash8Bytes_length (s : Hash8) : (hash8Bytes s).length = 32 := by
  simp [hash8Bytes, word32Bytes]

theorem sha256_length (msg : List Nat) : (sha256 msg).length = 32 :=
  hash8Bytes_length _

theorem sha256_mem_lt (msg : List Nat) : ∀ b ∈ sha256 msg, b < 256 :=
  hash8Bytes_mem_lt _

theorem hmacSha256_length (key msg : List Nat) : (hmacSha256 key msg).length = 32 :=
  sha256_length _

theorem hmacSha256_mem_lt (key msg : List Nat) : ∀ b ∈ hmacSha256 key msg, b < 256 :=
  sha256_mem_lt _

theorem hexCharVal_hexDigitChar : ∀ n < 16, hexCharVal (hexDigitChar n) = some n := by
  decide

theorem hexDecodeChars_hexPairs (bs : List Nat) (h : ∀ b ∈ bs, b < 256) :
    hexDecodeChars
      ((bs.map fun b => [hexDigitChar (b / 16), hexDigitChar (b % 16)]).flatten) =
      bs := by
  induction bs with
  | nil => rfl
  | cons b rest ih =>
    have hb : b < 256 := h b (by simp)
    have hdiv : b / 16 < 16 := by
      apply Nat.div_lt_of_lt_mul
      omega
    have h1 : hexCharVal (hexDigitChar (b / 16)) = some (b / 16) :=
      hexCharVal_hexDigitChar _ hdiv
    have h2 : hexCharVal (hexDigitChar (b % 16)) = some (b % 16) :=
      hexCharVal_hexDigitChar _ (Nat.mod_lt _ (by norm_num))
    simp only [List.map_cons, List.flatten_cons, List.cons_append,
      List.nil_append, hexDecodeChars, h1, h2, Nat.div_add_mod]
    exact congrArg (b :: ·) (ih fun x hx => h x (by simp [hx]))

theorem hexDecode_hexEncode (bs : List Nat) (h : ∀ b ∈ bs, b < 256) :
    hexDecode (hexEncode bs) = bs :=
  hexDecodeChars_hexPairs bs h

theorem hexEncode_length (bs : List Nat) : (hexEncode bs).length = 2 * bs.length := by
  induction bs with
  | nil => rfl
  | cons b rest ih =>
    simp only [hexEncode, String.length] at ih ⊢
    simp only [List.map_cons, List.flatten_cons, List.length_append] at ih ⊢
    simp [ih]
    omega

theorem hexDecode_createSignature (p s : String) :
    hexDecode (createSignature p s) = hmacSha256 (utf8Encode s) (utf8Encode p) :=
  hexDecode_hexEncode _ (hmacSha256_mem_lt _ _)

theorem hexDecode_createSignature_length (p s : String) :
    (hexDecode (createSignature p s)).length = 32 := by
  rw [hexDecode_createSignature]
  exact hmacSha256_length _ _

theorem createSignature_length (p s : String) : (createSignature p s).length = 64 := by
  unfold createSignature
  rw [hexEncode_length, hmacSha256_length]

theorem createSignature_ne_empty (p s : String) : createSignature p s ≠ "" := by
  intro h
  have := createSignature_length p s
  rw [h] at this
  simp at this

theorem createSignature_isEmpty_false (p s : String) :
    (createSignature p s).isEmpty = false := by
  rw [Bool.eq_false_iff]
  intro h
  exact createSignature_ne_empty p s ((String.isEmpty_iff _).mp h)

theorem ne_sha256Prefixed (s : String) : s ≠ "sha256=" ++ s := by
  intro h
  have hlen := congrArg String.length h
  have h7 : ("sha256=" : String).length = 7 := by decide
  rw [String.length_append, h7] at hlen
  omega

theorem verifySignature_none_of_badLength (p sig s : String)
    (h : (hexDecode sig).length ≠ 32) : verifySignature p sig s = none := by
  unfold verifySignature timingSafeEqual
  rw [if_neg]
  rw [hexDecode_createSignature_length]
  exact h

/-! ### Claim theorems -/

/-- C2: for every payload P and secret S, verifying the signature produced
by createSignature on the same payload and secret succeeds:
verifySignature returns true (some true in this model, in which none would
model a thrown exception). -/
theorem c2_verify_roundtrip (P S : String) :
    verifySignature P (createSignature P S) S = some true := by
  unfold verifySignature
  exact timingSafeEqual_self _

/-- C3: contrary to the claim that verifySignature is total and returns
false on malformed input, crypto.timingSafeEqual throws a RangeError
(modelled as none) whenever the candidate hex-decodes to a byte length
other than the 32 bytes of the expected digest: shown here for a
malformed-hex candidate, an empty candidate, and a short valid-hex
candidate. -/
theorem c3_verifySignature_throws :
    verifySignature "payload" "zz" "secret" = none ∧
    verifySignature "payload" "" "secret" = none ∧
    verifySignature "payload" "ab" "secret" = none := by
  refine ⟨?_, ?_, ?_⟩ <;> (apply verifySignature_none_of_badLength; decide)

/-- C7: a request missing the signature header or the timestamp header is
rejected with the missing-credentials response, for every clock value,
body, configuration and remaining header contents — so the presence check
precedes the timestamp-parse, freshness and signature checks. -/
theorem c7_missing_headers (now : Int) (cfg : HandlerConfig)
    (req : MiddlewareRequest) (h : req.sigHeader = none ∨ req.tsHeader = none) :
    verifyWebhook now cfg req = .missingCredentials := by
  unfold verifyWebhook
  rcases h with h | h <;> simp [h, jsFalsyHeader]

/-- Witness for C7 at a concrete request with no signature header but a
fresh timestamp. -/
theorem c7_missing_headers_witness :
    verifyWebhook 1000 (mkHandler ⟨"whsec", none⟩)
      ⟨none, some "1000", Json.obj []⟩ = .missingCredentials :=
  c7_missing_headers 1000 _ _ (Or.inl rfl)

/-- C8: an event whose type has no case in the processWebhookEvent switch
lands in the default branch: the dispatcher returns the unhandled outcome
rather than an error (the model is a total function, so nothing is
thrown), invokes no handler, and — being a pure function — processes any
subsequent event exactly as it would have otherwise. -/
theorem c8_unknown_type_unhandled (e : WebhookEvent)
    (h : e.type ∉ handledEventTypes) :
    processWebhookEvent e = .unhandled e.type ∧
    ∀ name, processWebhookEvent e ≠ .handled name := by
  simp only [handledEventTypes, List.mem_cons, List.not_mem_nil, or_false,
    not_or] at h
  obtain ⟨h1, h2, h3, h4, h5, h6, h7, h8, h9, h10, h11⟩ := h
  have hu : processWebhookEvent e = .unhandled e.type := by
    simp [processWebhookEvent, h1, h2, h3, h4, h5, h6, h7, h8, h9, h10, h11]
  exact ⟨hu, fun name hn => by
    rw [hu] at hn
    exact ProcessOutcome.noConfusion hn⟩

/-- Witness for C8 at a concrete event of an unregistered type. -/
theorem c8_unknown_type_unhandled_witness :
    processWebhookEvent
      ⟨"evt_1", "subscription.created", Json.null, "2024-01-01T00:00:00Z",
       "seller_1"⟩ = .unhandled "subscription.created" :=
  (c8_unknown_type_unhandled _ (by decide)).1

/-- C4: with both headers present and the timestamp header parsing to the
integer T, a correctly signed request is accepted whenever |now - T| is
within the tolerance; whenever |now - T| exceeds the tolerance the request
is rejected as stale even though its signature is valid, because the
staleness check runs before the signature check; and a handler constructed
without a tolerance property uses the default of 300 seconds. -/
theorem c4_tolerance_window (now T : Int) (cfgIn : WebhookConfig) (ts : String)
    (req : MiddlewareRequest)
    (hts : req.tsHeader = some ts) (hT : jsParseInt ts = some T)
    (hsig : req.sigHeader =
      some (createSignature (stringify req.body) (mkHandler cfgIn).secret)) :
    (((now - T).natAbs : Int) ≤ (mkHandler cfgIn).tolerance →
      verifyWebhook now (mkHandler cfgIn) req = .next) ∧
    (((now - T).natAbs : Int) > (mkHandler cfgIn).tolerance →
      verifyWebhook now (mkHandler cfgIn) req = .staleTimestamp) ∧
    (cfgIn.tolerance = none → (mkHandler cfgIn).tolerance = 300) := by
  have htsne : ts.isEmpty = false := by
    cases hE : ts.isEmpty
    · rfl
    · rw [(String.isEmpty_iff _).mp hE] at hT
      have hnone : jsParseInt "" = none := by decide
      rw [hnone] at hT
      exact Option.noConfusion hT
  have hfalsy : (jsFalsyHeader req.sigHeader || jsFalsyHeader req.tsHeader) = false := by
    rw [hsig, hts]
    simp [jsFalsyHeader, createSignature_isEmpty_false, htsne]
  have hstale : jsStaleGt now (jsParseInt (req.tsHeader.getD ""))
      (mkHandler cfgIn).tolerance =
      decide (((now - T).natAbs : Int) > (mkHandler cfgIn).tolerance) := by
    rw [hts]
    simp [jsStaleGt, hT]
  have hgetD : req.sigHeader.getD "" =
      createSignature (stringify req.body) (mkHandler cfgIn).secret := by
    rw [hsig]
    rfl
  refine ⟨?_, ?_, fun h => by simp [mkHandler, h]⟩
  · intro hle
    simp only [verifyWebhook, hfalsy, Bool.false_eq_true, if_false, hstale,
      decide_eq_false (not_lt.mpr hle), hgetD, timingSafeEqual_self]
  · intro hgt
    simp only [verifyWebhook, hfalsy, Bool.false_eq_true, if_false, hstale,
      decide_eq_true hgt, if_true]

/-- Concrete body for the C4 witness. -/
def c4Body : Json :=
  Json.obj [("type", Json.str "license.created"),
            ("data", Json.obj [("id", Json.str "lic_1")])]

/-- Concrete correctly-signed request with timestamp header 900 for the
C4 witness. -/
def c4Req : MiddlewareRequest :=
  ⟨some (createSignature (stringify c4Body) "whsec"), some "900", c4Body⟩

/-- Witness for C4: at clock 1000 the request with timestamp 900 is
accepted; at clock 2000 the same request is stale; the defaulted
tolerance is 300. -/
theorem c4_tolerance_window_witness :
    verifyWebhook 1000 (mkHandler ⟨"whsec", none⟩) c4Req = .next ∧
    verifyWebhook 2000 (mkHandler ⟨"whsec", none⟩) c4Req = .staleTimestamp ∧
    (mkHandler ⟨"whsec", none⟩).tolerance = 300 :=
  ⟨(c4_tolerance_window 1000 900 ⟨"whsec", none⟩ "900" c4Req rfl (by decide)
      rfl).1 (by decide),
   (c4_tolerance_window 2000 900 ⟨"whsec", none⟩ "900" c4Req rfl (by decide)
      rfl).2.1 (by decide),
   (c4_tolerance_window 1000 900 ⟨"whsec", none⟩ "900" c4Req rfl (by decide)
      rfl).2.2 rfl⟩

/-- Concrete body for the C5 failing input. -/
def c5Body : Json := Json.obj [("type", Json.str "license.created")]

/-- C5: contrary to the claim, a present but non-numeric timestamp header
is not rejected as malformed: parseInt yields NaN, Math.abs(now - NaN) is
NaN, and NaN > tolerance evaluates to false, so the freshness check
passes; with a valid signature the request is accepted outright.  No
MalformedTimestamp failure exists anywhere in the code. -/
theorem c5_malformed_timestamp_accepted :
    jsParseInt "not-a-number" = none ∧
    verifyWebhook 1000 (mkHandler ⟨"whsec", none⟩)
      ⟨some (createSignature (stringify c5Body) "whsec"), some "not-a-number",
       c5Body⟩ = .next := by
  refine ⟨by decide, ?_⟩
  simp only [verifyWebhook, jsFalsyHeader, createSignature_isEmpty_false,
    Option.getD_some, timingSafeEqual_self]
  decide

/-- Concrete raw request body for the C6 failing input: note the space
after the colon. -/
def c6RawBody : String := "\x7b\"event\": \"license.created\"\x7d"

/-- Parse of c6RawBody by the express.json middleware. -/
def c6ParsedBody : Json := Json.obj [("event", Json.str "license.created")]

/-- C6: contrary to the claim, the HMAC input is not the received raw
body bytes: express.json parses the raw bytes into an object and
verifyWebhook re-serializes that object with JSON.stringify, which here
drops the whitespace of the raw body, so the signing input differs from
the received bytes; consequently a signature correctly computed upstream
over the exact raw bytes is rejected as invalid despite a fresh
timestamp. -/
theorem c6_reserialized_payload :
    expressJsonParse c6RawBody = some c6ParsedBody ∧
    stringify c6ParsedBody ≠ c6RawBody ∧
    verifyWebhook 1000 (mkHandler ⟨"whsec", none⟩)
      ⟨some (createSignature c6RawBody "whsec"), some "1000", c6ParsedBody⟩ =
      .invalidSignature := by
  refine ⟨rfl, by decide, ?_⟩
  decide

/-- Concrete body for the C1 counterexample, carrying a years-old event
timestamp. -/
def c1Body : Json :=
  Json.obj [("event", Json.str "license.created"),
            ("data", Json.obj [("id", Json.str "lic_1")]),
            ("timestamp", Json.str "2020-01-01T00:00:00Z")]

/-- Correctly signed licensechain-route request whose timestamp header is
0 (epoch) and whose body timestamp is years in the past. -/
def c1StaleReq : LCRequest :=
  ⟨some ("sha256=" ++ createSignature (stringify c1Body) "whsec"), some "0",
   c1Body⟩

/-- C1 counterexample: at clock 1700000000 the stale but correctly signed
request reaches the dispatch stage of the licensechain route and the
license.created handler is invoked, although the timestamp-window
verification described by the spec fails on its timestamp header — the
route performs no timestamp-window verification at all. -/
theorem c1_dispatch_without_window_check :
    licensechainRoute "whsec" c1StaleReq = .handled "handleLicenseCreated" ∧
    specTimestampWindowOk 1700000000 c1StaleReq.tsHeader 300 = false :=
  ⟨by decide, by decide⟩

/-- C1 amended: in the verifyWebhook middleware pipeline, the dispatch
stage is reached only when the header-presence check, the staleness check
and the signature comparison all pass, and whenever verification does not
succeed the pipeline terminates with that rejection and no handler runs;
the licensechain route, by contrast, guards its dispatch stage by
signature verification alone: reaching a named handler there implies only
that the signature header equals the expected sha256-prefixed digest. -/
theorem c1_verified_before_dispatch (now : Int) (cfg : HandlerConfig)
    (req : MiddlewareRequest) (event : WebhookEvent) (sec : String)
    (lreq : LCRequest) :
    (∀ o, webhookPipeline now cfg req event = .dispatched o →
      jsFalsyHeader req.sigHeader = false ∧
      jsFalsyHeader req.tsHeader = false ∧
      jsStaleGt now (jsParseInt (req.tsHeader.getD "")) cfg.tolerance = false ∧
      timingSafeEqual (hexDecode (req.sigHeader.getD ""))
        (hexDecode (createSignature (stringify req.body) cfg.secret)) =
        some true) ∧
    (verifyWebhook now cfg req ≠ .next →
      webhookPipeline now cfg req event = .rejected (verifyWebhook now cfg req)) ∧
    (∀ name, licensechainRoute sec lreq = .handled name →
      lreq.sigHeader =
        some ("sha256=" ++ createSignature (stringify lreq.body) sec)) := by
  refine ⟨?_, ?_, ?_⟩
  · intro o h
    unfold webhookPipeline at h
    cases hw : verifyWebhook now cfg req with
    | missingCredentials => rw [hw] at h; exact absurd h (by simp)
    | staleTimestamp => rw [hw] at h; exact absurd h (by simp)
    | invalidSignature => rw [hw] at h; exact absurd h (by simp)
    | verificationError => rw [hw] at h; exact absurd h (by simp)
    | next =>
      clear h
      simp only [verifyWebhook] at hw
      split at hw
      · exact absurd hw (by simp)
      · next hc1 =>
        split at hw
        · exact absurd hw (by simp)
        · next hc2 =>
          have hb := Bool.or_eq_false_iff.mp (Bool.eq_false_iff.mpr hc1)
          split at hw
          · exact absurd hw (by simp)
          · exact absurd hw (by simp)
          · next heq => exact ⟨hb.1, hb.2, Bool.eq_false_iff.mpr hc2, heq⟩
  · intro h
    unfold webhookPipeline
    cases hw : verifyWebhook now cfg req <;> first | exact absurd hw h | rfl
  · intro name h
    obtain ⟨sh, th, bd⟩ := lreq
    simp only [licensechainRoute] at h
    split at h
    · split at h
      · next s =>
        split at h
        · next hEq => exact congrArg some hEq
        · exact absurd h (by simp)
      · exact absurd h (by simp)
    · exact absurd h (by simp)

/-- Concrete body for the C1 witness requests on the middleware path. -/
def c1MBody : Json := Json.obj [("type", Json.str "license.created")]

/-- Correctly signed, fresh middleware request for the C1 witness. -/
def c1GoodReq : MiddlewareRequest :=
  ⟨some (createSignature (stringify c1MBody) "whsec"), some "1000", c1MBody⟩

/-- Middleware request with no signature header for the C1 witness. -/
def c1BadReq : MiddlewareRequest := ⟨none, some "1000", c1MBody⟩

/-- Concrete event for the C1 witness. -/
def c1Event : WebhookEvent :=
  ⟨"evt_1", "license.created", Json.null, "2024-01-01T00:00:00Z", "seller_1"⟩

/-- Witness for the amended C1 at concrete requests: a dispatched request
on the middleware path passed every check, a request with a missing
header is rejected with no dispatch, and a request dispatched by the
licensechain route carried the sha256-prefixed signature. -/
theorem c1_verified_before_dispatch_witness :
    (jsFalsyHeader c1GoodReq.sigHeader = false ∧
     jsFalsyHeader c1GoodReq.tsHeader = false ∧
     jsStaleGt 1000 (jsParseInt (c1GoodReq.tsHeader.getD ""))
       (mkHandler ⟨"whsec", none⟩).tolerance = false ∧
     timingSafeEqual (hexDecode (c1GoodReq.sigHeader.getD ""))
       (hexDecode (createSignature (stringify c1GoodReq.body)
         (mkHandler ⟨"whsec", none⟩).secret)) = some true) ∧
    webhookPipeline 1000 (mkHandler ⟨"whsec", none⟩) c1BadReq c1Event =
      .rejected (verifyWebhook 1000 (mkHandler ⟨"whsec", none⟩) c1BadReq) ∧
    c1StaleReq.sigHeader =
      some ("sha256=" ++ createSignature (stringify c1StaleReq.body) "whsec") :=
  ⟨(c1_verified_before_dispatch 1000 (mkHandler ⟨"whsec", none⟩) c1GoodReq
      c1Event "whsec" c1StaleReq).1 (processWebhookEvent c1Event) (by decide),
   (c1_verified_before_dispatch 1000 (mkHandler ⟨"whsec", none⟩) c1BadReq
      c1Event "whsec" c1StaleReq).2.1 (by decide),
   (c1_verified_before_dispatch 1700000000 (mkHandler ⟨"whsec", none⟩)
      c1GoodReq c1Event "whsec" c1StaleReq).2.2 "handleLicenseCreated"
      (by decide)⟩

/-- Concrete validating body for the C9 counterexample. -/
def c9Body : Json :=
  Json.obj [("event", Json.str "license.created"), ("data", Json.obj []),
            ("timestamp", Json.str "2024-01-01T00:00:00Z")]

/-- Expected signature-header value on the licensechain route for c9Body. -/
def c9Expected : String :=
  "sha256=" ++ createSignature (stringify c9Body) "whsec"

/-- Candidate signature differing from the expected value at position 0. -/
def c9CandA : String := "x" ++ c9Expected.drop 1

/-- Candidate signature differing from the expected value first at
position 1. -/
def c9CandB : String := "sx" ++ c9Expected.drop 2

/-- C9 counterexample: the licensechain route compares the received
signature header against the expected value with a plain string equality;
in the early-exit running-time model of that comparison, two equal-length
rejected candidates whose first mismatch with the expected value sits at
positions 0 and 1 cost 1 and 2 character comparisons respectively, so the
comparison time depends on the position of the first mismatching
character — this verification path does not use a constant-time byte
comparator. -/
theorem c9_route_comparison_early_exit :
    c9CandA.length = c9Expected.length ∧
    c9CandB.length = c9Expected.length ∧
    earlyExitEqSteps c9CandA.data c9Expected.data = 1 ∧
    earlyExitEqSteps c9CandB.data c9Expected.data = 2 ∧
    licensechainRoute "whsec" ⟨some c9CandA, none, c9Body⟩ =
      .invalidSignature ∧
    licensechainRoute "whsec" ⟨some c9CandB, none, c9Body⟩ =
      .invalidSignature :=
  ⟨by decide, by decide, by decide, by decide, by decide, by decide⟩

/-- C9 amended: the comparator used by WebhookHandler.verifySignature and
verifyWebhook is crypto.timingSafeEqual, whose number of byte comparisons
on equal-length buffers equals the buffer length — independent of the
contents, hence of the position of any mismatch — while the /stripe and
/licensechain route handlers instead compare with plain string equality
(see the counterexample). -/
theorem c9_constant_time_comparator (a b a2 b2 : List Nat)
    (h : a.length = b.length) (h2 : a2.length = a.length)
    (h3 : b2.length = a.length) :
    timingSafeEqualSteps a b = some a.length ∧
    timingSafeEqualSteps a2 b2 = timingSafeEqualSteps a b ∧
    (∀ p sig s, verifySignature p sig s =
      timingSafeEqual (hexDecode sig) (hexDecode (createSignature p s))) := by
  refine ⟨?_, ?_, fun p sig s => rfl⟩
  · simp [timingSafeEqualSteps, h]
  · simp [timingSafeEqualSteps, h, h2, h3]

/-- Witness for the amended C9 on two pairs of two-byte buffers with
different contents and mismatch positions but the same comparison cost. -/
theorem c9_constant_time_comparator_witness :
    timingSafeEqualSteps [0, 1] [2, 3] = some 2 ∧
    timingSafeEqualSteps [7, 7] [9, 9] = timingSafeEqualSteps [0, 1] [2, 3] :=
  ⟨(c9_constant_time_comparator [0, 1] [2, 3] [7, 7] [9, 9] rfl rfl rfl).1,
   (c9_constant_time_comparator [0, 1] [2, 3] [7, 7] [9, 9] rfl rfl rfl).2.1⟩

/-- C10: the licensechain route accepts only the prefixed signature
format: a validating request whose signature header carries the bare
64-character hex digest produced by createSignature — exactly the format
accepted by WebhookHandler.verifySignature — is always rejected with an
invalid-signature response, because the route compares against the string
sha256= followed by the digest; conversely any request the route does not
reject carries exactly that prefixed string. -/
theorem c10_bare_digest_rejected (secret : String) (req : LCRequest)
    (hval : lcValidate req.body = true)
    (hsig : req.sigHeader = some (createSignature (stringify req.body) secret)) :
    licensechainRoute secret req = .invalidSignature ∧
    (createSignature (stringify req.body) secret).length = 64 ∧
    (∀ (req2 : LCRequest) (s : String), req2.sigHeader = some s →
      licensechainRoute secret req2 ≠ .invalidSignature →
      licensechainRoute secret req2 ≠ .validationError →
      s = "sha256=" ++ createSignature (stringify req2.body) secret) := by
  refine ⟨?_, createSignature_length _ _, ?_⟩
  · simp only [licensechainRoute, hval, if_true, hsig]
    exact if_neg (ne_sha256Prefixed _)
  · intro req2 s hs2 hinv hvalerr
    obtain ⟨sh, th, bd⟩ := req2
    simp only at hs2
    subst hs2
    simp only [licensechainRoute] at hinv hvalerr
    by_cases hv : lcValidate bd = true
    · rw [if_pos hv] at hinv
      by_cases hEq : s = "sha256=" ++
          hexEncode (hmacSha256 (utf8Encode secret) (utf8Encode (stringify bd)))
      · exact hEq
      · rw [if_neg hEq] at hinv
        exact absurd rfl hinv
    · rw [if_neg hv] at hvalerr
      exact absurd rfl hvalerr

/-- Concrete validating body for the C10 witness. -/
def c10Body : Json :=
  Json.obj [("event", Json.str "license.created"), ("data", Json.obj []),
            ("timestamp", Json.str "2024-01-01T00:00:00Z")]

/-- Request carrying the bare hex digest as its signature header. -/
def c10Req : LCRequest :=
  ⟨some (createSignature (stringify c10Body) "whsec"), none, c10Body⟩

/-- Witness for C10: the concrete bare-digest request is rejected and the
digest has 64 characters. -/
theorem c10_bare_digest_rejected_witness :
    licensechainRoute "whsec" c10Req = .invalidSignature ∧
    (createSignature (stringify c10Body) "whsec").length = 64 :=
  ⟨(c10_bare_digest_rejected "whsec" c10Req (by decide) rfl).1,
   (c10_bare_digest_rejected "whsec" c10Req (by decide) rfl).2.1⟩

end LicenseChain
